import Mathlib

/-!
Verification of the chilihead-team-board task store and its HTTP surface.

The development shallowly embeds the final (PostgreSQL-backed) storage layer
`src/lib/db.ts`, the schema constraints of `src/database/schema.sql`, and the
route handlers of `src/app/api/tasks/route.ts` (the `dbStore` version).

Modelling conventions:
* timestamps are abstract instants (`Nat`); `NOW()` is an explicit `now`
  parameter threaded through every operation;
* SQL `NULL` for optional columns is `Option`; the JavaScript coercion
  `x || fallback` on strings is `orDefault` / `nullIfEmpty` (empty string is
  falsy);
* the table is a `List Task` in insertion order; `ORDER BY created_at DESC`
  is a merge sort with the comparator `createdDesc`;
* a failing statement is an `Except` error; `addTask` / `updateTask` catch
  the database error and rethrow the generic message the source uses, while
  `getTaskStats` catches and returns zeroes, exactly as in the source.
-/

namespace ChiliBoard

/-- A row of `team_tasks` (the `Task` interface of `src/lib/db.ts`). -/
structure Task where
  id : String
  title : String
  description : Option String
  priority : String
  due_date : Option Nat
  assigned_to : Option String
  status : String
  created_at : Nat
  updated_at : Nat
  pushed_by : String
deriving DecidableEq, Repr

/-- The `check_priority` enumeration of `schema.sql`. -/
def allowedPriorities : List String := ["low", "normal", "high", "urgent"]

/-- The `check_status` enumeration of `schema.sql`. -/
def allowedStatuses : List String := ["todo", "in_progress", "completed"]

/-- Database-level failure causes distinguished by PostgreSQL. -/
inductive DbError where
  | checkViolation
  | uniqueViolation
deriving DecidableEq, Repr

/-- Caller-supplied task fields: `Omit Task created_at updated_at`,
the argument type of `dbStore.addTask`. -/
structure TaskInput where
  id : String
  title : String
  description : Option String
  priority : String
  due_date : Option Nat
  assigned_to : Option String
  status : String
  pushed_by : String
deriving DecidableEq, Repr

/-- JavaScript `x || d` on an optional string: the empty string is falsy. -/
def orDefault : Option String → String → String
  | some s, d => if s = "" then d else s
  | none, d => d

/-- JavaScript `x || null` on an optional string column value. -/
def nullIfEmpty : Option String → Option String
  | some s => if s = "" then none else some s
  | none => none

/-- The parameter values `dbStore.addTask` binds into its INSERT statement:
`description` and `assigned_to` pass through `x || null`. -/
def addTaskValues (task : TaskInput) : TaskInput :=
  { task with
    description := nullIfEmpty task.description
    assigned_to := nullIfEmpty task.assigned_to }

/-- The row a successful INSERT stores: column defaults set both timestamps
to the same `NOW()`. -/
def rowOfValues (v : TaskInput) (now : Nat) : Task :=
  { id := v.id
    title := v.title
    description := v.description
    priority := v.priority
    due_date := v.due_date
    assigned_to := v.assigned_to
    status := v.status
    created_at := now
    updated_at := now
    pushed_by := v.pushed_by }

/-- Semantics of the INSERT in `dbStore.addTask` against `team_tasks`:
the CHECK constraints on `priority` and `status` and the primary-key
uniqueness of `id` can each reject the row. -/
def insertRow (state : List Task) (v : TaskInput) (now : Nat) :
    Except DbError (Task × List Task) :=
  if allowedPriorities.contains v.priority then
    if allowedStatuses.contains v.status then
      if state.any (fun t => t.id == v.id) then
        .error .uniqueViolation
      else
        .ok (rowOfValues v now, state ++ [rowOfValues v now])
    else .error .checkViolation
  else .error .checkViolation

/-- `dbStore.addTask`: runs the INSERT and rethrows any database error as
the generic message `Failed to add task to database`. -/
def addTask (state : List Task) (task : TaskInput) (now : Nat) :
    Except String (Task × List Task) :=
  match insertRow state (addTaskValues task) now with
  | .ok r => .ok r
  | .error _ => .error "Failed to add task to database"

/-- `dbStore.getTaskById`: `SELECT * FROM team_tasks WHERE id = $1`,
`null` when no row matches. -/
def getTaskById (state : List Task) (id : String) : Option Task :=
  state.find? (fun t => t.id == id)

/-- Comparator of `ORDER BY created_at DESC`: newest first. -/
def createdDesc (a b : Task) : Bool :=
  decide (b.created_at ≤ a.created_at)

/-- `dbStore.getTasks`: optional status filter (JavaScript truthiness, so an
empty-string filter is ignored), then `ORDER BY created_at DESC`. -/
def getTasks (state : List Task) (status : Option String) : List Task :=
  let rows :=
    match status with
    | some s => if s = "" then state else state.filter (fun t => t.status == s)
    | none => state
  rows.mergeSort createdDesc

/-- `dbStore.deleteTask`: `DELETE FROM team_tasks WHERE id = $1`; the first
component is `rowCount > 0`, the second the remaining table. -/
def deleteTask (state : List Task) (id : String) : Bool × List Task :=
  (state.any (fun t => t.id == id), state.filter (fun t => !(t.id == id)))

/-- A `Partial Task` update body: a field is `some` exactly when the
corresponding `updates.field !== undefined` test passes. `due_date` may be
present but falsy, which the source turns into `null`. -/
structure TaskPatch where
  title : Option String := none
  description : Option String := none
  priority : Option String := none
  due_date : Option (Option Nat) := none
  assigned_to : Option String := none
  status : Option String := none
  pushed_by : Option String := none
deriving DecidableEq, Repr

/-- The empty update body. -/
def emptyPatch : TaskPatch := {}

/-- An update body carrying only a `status` field. -/
def statusPatch (s : String) : TaskPatch := { status := some s }

/-- Whether `dbStore.updateTask` collected at least one SET clause
(`fields.length !== 0`). -/
def patchHasFields (p : TaskPatch) : Bool :=
  p.title.isSome || p.description.isSome || p.priority.isSome ||
    p.due_date.isSome || p.assigned_to.isSome || p.status.isSome ||
    p.pushed_by.isSome

/-- Effect of the dynamic UPDATE of `dbStore.updateTask` on one row:
supplied fields are applied (`description` and `assigned_to` through
`x || null`), and the `trigger_update_team_tasks_updated_at` trigger stamps
`updated_at` with `NOW()`; `created_at` is never touched. -/
def applyPatch (t : Task) (p : TaskPatch) (now : Nat) : Task :=
  { id := t.id
    title := p.title.getD t.title
    description :=
      match p.description with
      | some s => if s = "" then none else some s
      | none => t.description
    priority := p.priority.getD t.priority
    due_date :=
      match p.due_date with
      | some d => d
      | none => t.due_date
    assigned_to :=
      match p.assigned_to with
      | some s => if s = "" then none else some s
      | none => t.assigned_to
    status := p.status.getD t.status
    pushed_by := p.pushed_by.getD t.pushed_by
    created_at := t.created_at
    updated_at := now }

/-- `dbStore.updateTask`: with no recognized fields it returns
`getTaskById` without touching the table; otherwise it runs the dynamic
UPDATE, returning `null` when no row matched, and rethrows a constraint
violation as the generic message `Failed to update task in database`. -/
def updateTask (state : List Task) (id : String) (p : TaskPatch) (now : Nat) :
    Except String (Option Task × List Task) :=
  if patchHasFields p then
    match state.find? (fun t => t.id == id) with
    | none => .ok (none, state)
    | some t =>
      let t2 := applyPatch t p now
      if allowedPriorities.contains t2.priority &&
          allowedStatuses.contains t2.status then
        .ok (some t2, state.map (fun u => if u.id == id then applyPatch u p now else u))
      else .error "Failed to update task in database"
  else .ok (getTaskById state id, state)

/-- The aggregate record produced by `dbStore.getTaskStats`. -/
structure TaskStats where
  total : Nat
  todo : Nat
  in_progress : Nat
  completed : Nat
  overdue : Nat
deriving DecidableEq, Repr

/-- SQL `CASE WHEN cond THEN 1 ELSE 0 END`. -/
def caseOne (b : Bool) : Nat := if b then 1 else 0

/-- SQL `SUM` of a per-row expression over the whole table. -/
def sqlSumBy (f : Task → Nat) (rows : List Task) : Nat :=
  rows.foldl (fun acc r => acc + f r) 0

/-- SQL `due_date < NOW()`: a NULL `due_date` makes the comparison NULL,
which the surrounding CASE treats as not satisfied. -/
def dueBeforeNow (t : Task) (now : Nat) : Bool :=
  match t.due_date with
  | some d => decide (d < now)
  | none => false

/-- The all-zero statistics record. -/
def zeroStats : TaskStats :=
  { total := 0, todo := 0, in_progress := 0, completed := 0, overdue := 0 }

/-- `dbStore.getTaskStats`: the aggregate query over the table, with the
source's catch-all that swallows any storage failure and returns all-zero
counts. The argument is the outcome of the underlying query. -/
def getTaskStats (queryResult : Except String (List Task)) (now : Nat) :
    TaskStats :=
  match queryResult with
  | .error _ => zeroStats
  | .ok rows =>
    { total := rows.length
      todo := sqlSumBy (fun r => caseOne (r.status == "todo")) rows
      in_progress := sqlSumBy (fun r => caseOne (r.status == "in_progress")) rows
      completed := sqlSumBy (fun r => caseOne (r.status == "completed")) rows
      overdue := sqlSumBy
        (fun r => caseOne (dueBeforeNow r now && !(r.status == "completed"))) rows }

/-- The team key of `verifyApiKey`:
`process.env.NEXT_PUBLIC_TEAM_API_KEY || 'team-member-access'`. -/
def teamKeyOf (teamKeyEnv : Option String) : String :=
  orDefault teamKeyEnv "team-member-access"

/-- `verifyApiKey` of `src/app/api/tasks/route.ts`: rejects everything when
the manager key is unconfigured (absent or empty), otherwise accepts exactly
the manager key or the team key. -/
def verifyApiKey (apiKey managerKey teamKeyEnv : Option String) : Bool :=
  match managerKey with
  | none => false
  | some mk =>
    if mk = "" then false
    else apiKey == some mk || apiKey == some (teamKeyOf teamKeyEnv)

/-- A POST `/api/tasks` request body; a field is `some` when present. -/
structure PostBody where
  id : Option String := none
  title : Option String := none
  description : Option String := none
  priority : Option String := none
  due_date : Option Nat := none
  assigned_to : Option String := none
  status : Option String := none
  pushed_by : Option String := none
deriving DecidableEq, Repr

/-- Outcome of the POST handler. -/
inductive PostResult where
  | unauthorized
  | badRequest
  | serverError
  | created (task : Task)
deriving DecidableEq, Repr

/-- HTTP status code attached to each POST outcome by the source. -/
def postStatusCode : PostResult → Nat
  | .unauthorized => 401
  | .badRequest => 400
  | .serverError => 500
  | .created _ => 200

/-- The task object the POST handler assembles from the body (after the
title check passed with the truthy title `title`): defaults are applied with
JavaScript `||`, and the id falls back to `task_` followed by `Date.now()`. -/
def postTaskInput (body : PostBody) (title : String) (now : Nat) : TaskInput :=
  { id := orDefault body.id ("task_" ++ toString now)
    title := title
    description := some (orDefault body.description "")
    priority := orDefault body.priority "normal"
    due_date := body.due_date
    assigned_to := body.assigned_to
    status := orDefault body.status "todo"
    pushed_by := orDefault body.pushed_by "ChiliHead System" }

/-- The POST `/api/tasks` handler: API-key check first, then the required
`title` (missing or empty fails with 400), then `dbStore.addTask`; a store
failure is mapped to a generic 500 response. -/
def POST (managerKey teamKeyEnv apiKey : Option String) (body : PostBody)
    (state : List Task) (now : Nat) : PostResult × List Task :=
  if verifyApiKey apiKey managerKey teamKeyEnv then
    match body.title with
    | none => (.badRequest, state)
    | some ttl =>
      if ttl = "" then (.badRequest, state)
      else
        match addTask state (postTaskInput body ttl now) now with
        | .ok (task, st) => (.created task, st)
        | .error _ => (.serverError, state)
  else (.unauthorized, state)

/-- The JSON shape returned by the GET handler. -/
structure GetResponse where
  success : Bool
  tasks : List Task
  count : Nat
deriving DecidableEq, Repr

/-- The GET `/api/tasks` handler: no credentials required; the query
parameter is passed as `status || undefined` to `dbStore.getTasks`, and
`count` is the length of the returned list. -/
def GET (state : List Task) (statusParam : Option String) : GetResponse :=
  let tasks :=
    getTasks state
      (match statusParam with
       | some s => if s = "" then none else some s
       | none => none)
  { success := true, tasks := tasks, count := tasks.length }

/-- Outcome of the DELETE handler. -/
inductive DeleteResult where
  | unauthorized
  | badRequest
  | notFound
  | ok
deriving DecidableEq, Repr

/-- HTTP status code attached to each DELETE outcome by the source. -/
def deleteStatusCode : DeleteResult → Nat
  | .unauthorized => 401
  | .badRequest => 400
  | .notFound => 404
  | .ok => 200

/-- The DELETE `/api/tasks?id=` handler: API-key check first, then the
required id (missing or empty fails with 400), then `dbStore.deleteTask`,
with 404 when nothing was removed. -/
def DELETE (managerKey teamKeyEnv apiKey : Option String)
    (idParam : Option String) (state : List Task) :
    DeleteResult × List Task :=
  if verifyApiKey apiKey managerKey teamKeyEnv then
    match idParam with
    | none => (.badRequest, state)
    | some tid =>
      if tid = "" then (.badRequest, state)
      else
        let r := deleteTask state tid
        if r.1 then (.ok, r.2) else (.notFound, r.2)
  else (.unauthorized, state)

/-- The record `dbStore.addTask` stores for a given input and creation time:
the bound values (with the `x || null` coercions) inserted with both
timestamps defaulted to `NOW()`. -/
def storedTask (input : TaskInput) (now : Nat) : Task :=
  rowOfValues (addTaskValues input) now

/-- A concrete stored row used to evaluate the theorems. -/
def rowA : Task :=
  { id := "t1", title := "First", description := none, priority := "high",
    due_date := none, assigned_to := none, status := "todo",
    created_at := 3, updated_at := 3, pushed_by := "Sys" }

/-- A concrete completed row, newer than `rowA`. -/
def rowB : Task :=
  { id := "t2", title := "Later", description := none, priority := "normal",
    due_date := some 2, assigned_to := none, status := "completed",
    created_at := 9, updated_at := 9, pushed_by := "Sys" }

/-- A concrete create input that reuses the id of `rowA`. -/
def inputDupe : TaskInput :=
  { id := "t1", title := "Second", description := none, priority := "normal",
    due_date := none, assigned_to := none, status := "todo", pushed_by := "Sys" }

/-- A concrete create input with a priority outside the enumeration. -/
def inputBadPriority : TaskInput :=
  { id := "t9", title := "Bad", description := none, priority := "extreme",
    due_date := none, assigned_to := none, status := "todo", pushed_by := "Sys" }

/-- A concrete create input whose description is the empty string. -/
def inputEmptyDesc : TaskInput :=
  { id := "d1", title := "Desc test", description := some "",
    priority := "normal", due_date := none, assigned_to := none,
    status := "todo", pushed_by := "Sys" }

/-- A concrete fully-populated valid create input. -/
def inputFull : TaskInput :=
  { id := "w4", title := "Walk-in", description := some "Check temps",
    priority := "low", due_date := some 12, assigned_to := some "Ana",
    status := "in_progress", pushed_by := "Ops" }

/-- A concrete POST body with `priority` outside the enumeration. -/
def postBodyBadPriority : PostBody :=
  { title := some "Inventory", priority := some "extreme" }

/-- A concrete POST body that reuses the id of `rowA`. -/
def postBodyDupe : PostBody :=
  { id := some "t1", title := some "Second" }

/-- A concrete valid POST body. -/
def postBodyOk : PostBody :=
  { id := some "p1", title := some "Prep line" }

/-- Helper: summing `CASE WHEN p THEN 1 ELSE 0 END` starting from `n`
counts the rows satisfying `p`. -/
theorem foldl_add_caseOne (p : Task → Bool) (rows : List Task) (n : Nat) :
    rows.foldl (fun acc r => acc + caseOne (p r)) n =
      n + (rows.filter p).length := by
  induction rows generalizing n with
  | nil => simp
  | cons r rs ih =>
    rw [List.foldl_cons, ih, List.filter_cons]
    by_cases h : p r <;> (simp [h, caseOne]; try omega)

/-- Helper: a SQL `SUM` of `CASE WHEN p THEN 1 ELSE 0 END` is a filtered
count. -/
theorem sqlSumBy_caseOne (p : Task → Bool) (rows : List Task) :
    sqlSumBy (fun r => caseOne (p r)) rows = (rows.filter p).length := by
  simpa using foldl_add_caseOne p rows 0

/-- Helper: the SQL `due_date < NOW()` test as an `Option.any`. -/
theorem dueBeforeNow_eq (t : Task) (now : Nat) :
    dueBeforeNow t now = t.due_date.any (fun d => decide (d < now)) := by
  cases h : t.due_date <;> simp [dueBeforeNow, h]

/-- C6: for an existing task id, `updateTask` with an empty patch is a
no-op: it issues no UPDATE and returns the current record and the unchanged
table, so no field — `updated_at` included — changes. -/
theorem c6_updateTask_empty_noop (state : List Task) (tid : String)
    (t : Task) (now : Nat) (hfind : getTaskById state tid = some t) :
    updateTask state tid emptyPatch now = .ok (some t, state) := by
  simp [updateTask, patchHasFields, emptyPatch, hfind]

/-- C6 witness: the no-op update on a concrete one-row table. -/
theorem c6_witness :
    getTaskById [rowA] "t1" = some rowA ∧
    updateTask [rowA] "t1" emptyPatch 9 = .ok (some rowA, [rowA]) :=
  ⟨by decide, c6_updateTask_empty_noop [rowA] "t1" rowA 9 (by decide)⟩

/-- C8: `getTaskStats` over a successful query returns the total row count,
the per-status counts, and an overdue count equal to the number of rows
whose `due_date` is before `now` and whose status is not `completed`; on
the empty table every count is zero. -/
theorem c8_getTaskStats_counts (state : List Task) (now : Nat) :
    getTaskStats (.ok state) now =
      { total := state.length
        todo := (state.filter (fun t => t.status == "todo")).length
        in_progress := (state.filter (fun t => t.status == "in_progress")).length
        completed := (state.filter (fun t => t.status == "completed")).length
        overdue := (state.filter
          (fun t => t.due_date.any (fun d => decide (d < now)) &&
            !(t.status == "completed"))).length } ∧
    getTaskStats (.ok []) now = zeroStats := by
  refine ⟨?_, rfl⟩
  simp only [getTaskStats, sqlSumBy_caseOne, dueBeforeNow_eq]

/-- C9: `deleteTask` reports whether a row with the id existed, never
fails for an absent id, and afterwards `getTaskById` finds nothing and a
second delete returns `false` and leaves the table as it was. -/
theorem c9_deleteTask (state : List Task) (id : String) :
    ((deleteTask state id).1 = true ↔ ∃ t ∈ state, t.id = id) ∧
    getTaskById (deleteTask state id).2 id = none ∧
    (deleteTask (deleteTask state id).2 id).1 = false ∧
    (deleteTask (deleteTask state id).2 id).2 = (deleteTask state id).2 := by
  refine ⟨?_, ?_, ?_, ?_⟩
  · simp [deleteTask, List.any_eq_true]
  · simp only [deleteTask, getTaskById]
    rw [List.find?_eq_none]
    intro x hx
    simp only [List.mem_filter] at hx
    simpa using hx.2
  · simp only [deleteTask]
    rw [List.any_eq_false]
    intro x hx
    simp only [List.mem_filter] at hx
    simpa using hx.2
  · simp [deleteTask, List.filter_filter]

/-- Helper: `x || null` leaves a value alone when it is not the empty
string. -/
theorem nullIfEmpty_eq_self (o : Option String) (h : o ≠ some "") :
    nullIfEmpty o = o := by
  cases o with
  | none => rfl
  | some s =>
    have hs : s ≠ "" := fun he => h (by rw [he])
    simp [nullIfEmpty, hs]

/-- Helper: `addTask` succeeds and appends the stored row when the enums
are valid and the id is fresh. -/
theorem addTask_ok (state : List Task) (input : TaskInput) (now : Nat)
    (hp : allowedPriorities.contains input.priority = true)
    (hs : allowedStatuses.contains input.status = true)
    (hfresh : state.any (fun t => t.id == input.id) = false) :
    addTask state input now =
      .ok (storedTask input now, state ++ [storedTask input now]) := by
  have hp' : input.priority ∈ allowedPriorities := by simpa using hp
  have hs' : input.status ∈ allowedStatuses := by simpa using hs
  simp [addTask, insertRow, storedTask, addTaskValues, hp', hs', hfresh]

/-- C4 counterexample: the store coerces an empty-string `description` to
NULL (`task.description || null`), so the record read back does not equal
the caller-supplied value on that field. -/
theorem c4_counterexample :
    inputEmptyDesc.description = some "" ∧
    addTask [] inputEmptyDesc 5 =
      .ok (storedTask inputEmptyDesc 5, [storedTask inputEmptyDesc 5]) ∧
    getTaskById [storedTask inputEmptyDesc 5] "d1" =
      some (storedTask inputEmptyDesc 5) ∧
    (storedTask inputEmptyDesc 5).description = none ∧
    (none : Option String) ≠ some "" :=
  ⟨rfl, rfl, rfl, rfl, by decide⟩

/-- C4 (amended): for a valid input whose `description` and `assigned_to`
are not empty strings, `addTask` followed by `getTaskById` returns a record
whose caller-supplied fields all equal the supplied values, and whose
`created_at` equals its `updated_at`. -/
theorem c4_create_then_get (state : List Task) (input : TaskInput) (now : Nat)
    (hp : allowedPriorities.contains input.priority = true)
    (hs : allowedStatuses.contains input.status = true)
    (hfresh : state.any (fun t => t.id == input.id) = false)
    (hd : input.description ≠ some "")
    (ha : input.assigned_to ≠ some "") :
    addTask state input now =
      .ok (storedTask input now, state ++ [storedTask input now]) ∧
    getTaskById (state ++ [storedTask input now]) input.id =
      some (storedTask input now) ∧
    (storedTask input now).id = input.id ∧
    (storedTask input now).title = input.title ∧
    (storedTask input now).description = input.description ∧
    (storedTask input now).priority = input.priority ∧
    (storedTask input now).due_date = input.due_date ∧
    (storedTask input now).assigned_to = input.assigned_to ∧
    (storedTask input now).status = input.status ∧
    (storedTask input now).pushed_by = input.pushed_by ∧
    (storedTask input now).created_at = (storedTask input now).updated_at := by
  refine ⟨addTask_ok state input now hp hs hfresh, ?_, rfl, rfl, ?_, rfl,
    rfl, ?_, rfl, rfl, rfl⟩
  · simp only [getTaskById, List.find?_append]
    have h1 : state.find? (fun t => t.id == input.id) = none := by
      rw [List.find?_eq_none]
      intro x hx
      simpa using (List.any_eq_false.mp hfresh) x hx
    rw [h1]
    simp [storedTask, rowOfValues, addTaskValues, List.find?_cons]
  · show nullIfEmpty input.description = input.description
    exact nullIfEmpty_eq_self input.description hd
  · show nullIfEmpty input.assigned_to = input.assigned_to
    exact nullIfEmpty_eq_self input.assigned_to ha

/-- C4 witness: the amended round trip evaluated on a concrete input. -/
theorem c4_witness :
    allowedPriorities.contains inputFull.priority = true ∧
    inputFull.description ≠ some "" ∧
    getTaskById ([] ++ [storedTask inputFull 5]) inputFull.id =
      some (storedTask inputFull 5) ∧
    (storedTask inputFull 5).created_at = (storedTask inputFull 5).updated_at := by
  have h := c4_create_then_get [] inputFull 5 (by decide) (by decide)
    (by decide) (by decide) (by decide)
  exact ⟨by decide, by decide, h.2.1, h.2.2.2.2.2.2.2.2.2.2⟩

/-- Helper: a status-only patch changes exactly the `status` column, and
the update trigger stamps `updated_at`. -/
theorem applyPatch_statusPatch (t : Task) (s : String) (now : Nat) :
    applyPatch t (statusPatch s) now =
      { t with status := s, updated_at := now } := rfl

/-- Helper: a status-only patch carries a recognized field. -/
theorem patchHasFields_statusPatch (s : String) :
    patchHasFields (statusPatch s) = true := rfl

/-- C5: a partial update supplying only `status` changes only the status:
every other column, `created_at` included, is unchanged, and `updated_at`
becomes `now`, strictly greater than its prior value since the update
happens strictly after the last stamp. -/
theorem c5_updateTask_status_frame (state : List Task) (t : Task)
    (tid s : String) (now : Nat)
    (hfind : state.find? (fun u => u.id == tid) = some t)
    (hs : allowedStatuses.contains s = true)
    (hp : allowedPriorities.contains t.priority = true)
    (hlt : t.updated_at < now) :
    updateTask state tid (statusPatch s) now =
      .ok (some { t with status := s, updated_at := now },
        state.map (fun u =>
          if u.id == tid then { u with status := s, updated_at := now } else u)) ∧
    ({ t with status := s, updated_at := now } : Task).id = t.id ∧
    ({ t with status := s, updated_at := now } : Task).title = t.title ∧
    ({ t with status := s, updated_at := now } : Task).description = t.description ∧
    ({ t with status := s, updated_at := now } : Task).priority = t.priority ∧
    ({ t with status := s, updated_at := now } : Task).due_date = t.due_date ∧
    ({ t with status := s, updated_at := now } : Task).assigned_to = t.assigned_to ∧
    ({ t with status := s, updated_at := now } : Task).pushed_by = t.pushed_by ∧
    ({ t with status := s, updated_at := now } : Task).created_at = t.created_at ∧
    t.updated_at < ({ t with status := s, updated_at := now } : Task).updated_at := by
  refine ⟨?_, rfl, rfl, rfl, rfl, rfl, rfl, rfl, rfl, hlt⟩
  have hp' : t.priority ∈ allowedPriorities := by simpa using hp
  have hs' : s ∈ allowedStatuses := by simpa using hs
  simp only [updateTask, patchHasFields_statusPatch, if_true, hfind,
    applyPatch_statusPatch]
  simp [hp', hs']

/-- C5 witness: the status-only update evaluated on a concrete table. -/
theorem c5_witness :
    [rowA].find? (fun u => u.id == "t1") = some rowA ∧
    rowA.updated_at < 9 ∧
    updateTask [rowA] "t1" (statusPatch "completed") 9 =
      .ok (some { rowA with status := "completed", updated_at := 9 },
        [rowA].map (fun u =>
          if u.id == "t1" then { u with status := "completed", updated_at := 9 }
          else u)) := by
  have h := c5_updateTask_status_frame [rowA] rowA "t1" "completed" 9
    (by decide) (by decide) (by decide) (by decide)
  exact ⟨by decide, by decide, h.1⟩

/-- Helper: the `created_at DESC` comparator is transitive. -/
theorem createdDesc_trans (a b c : Task) (h1 : createdDesc a b = true)
    (h2 : createdDesc b c = true) : createdDesc a c = true := by
  simp only [createdDesc, decide_eq_true_eq] at *
  omega

/-- Helper: the `created_at DESC` comparator is total. -/
theorem createdDesc_total (a b : Task) :
    (createdDesc a b || createdDesc b a) = true := by
  simp only [createdDesc, Bool.or_eq_true, decide_eq_true_eq]
  omega

/-- Helper: the sort of `ORDER BY created_at DESC` is newest-first. -/
theorem pairwise_mergeSort_createdDesc (l : List Task) :
    List.Pairwise (fun a b => b.created_at ≤ a.created_at)
      (l.mergeSort createdDesc) := by
  have h := @List.sorted_mergeSort Task createdDesc
    createdDesc_trans createdDesc_total l
  exact h.imp (fun hab => by
    simpa [createdDesc] using hab)

/-- C7: `getTasks` with a (nonempty) status filter returns exactly the rows
with that status, newest `created_at` first; with no filter it returns the
whole table in that order; an empty result is the empty list; and the GET
handler forwards the filter and reports `count` equal to the length of the
returned list. -/
theorem c7_getTasks_filter_sorted (state : List Task) (s : String)
    (hs : s ≠ "") :
    (getTasks state (some s)).Perm (state.filter (fun t => t.status == s)) ∧
    List.Pairwise (fun a b => b.created_at ≤ a.created_at)
      (getTasks state (some s)) ∧
    (getTasks state none).Perm state ∧
    List.Pairwise (fun a b => b.created_at ≤ a.created_at)
      (getTasks state none) ∧
    (state.filter (fun t => t.status == s) = [] →
      getTasks state (some s) = []) ∧
    (GET state (some s)).tasks = getTasks state (some s) ∧
    (GET state (some s)).count = (GET state (some s)).tasks.length ∧
    (GET state none).tasks = getTasks state none ∧
    (GET state none).count = (GET state none).tasks.length := by
  have hsome : getTasks state (some s) =
      (state.filter (fun t => t.status == s)).mergeSort createdDesc := by
    simp [getTasks, hs]
  have hnone : getTasks state none = state.mergeSort createdDesc := rfl
  refine ⟨?_, ?_, ?_, ?_, ?_, ?_, rfl, rfl, rfl⟩
  · rw [hsome]; exact List.mergeSort_perm _ _
  · rw [hsome]; exact pairwise_mergeSort_createdDesc _
  · rw [hnone]; exact List.mergeSort_perm _ _
  · rw [hnone]; exact pairwise_mergeSort_createdDesc _
  · intro h
    rw [hsome, h]
    exact List.perm_nil.mp (List.mergeSort_perm [] createdDesc)
  · simp [GET, hs]

/-- C7 witness: the filtered, counted read evaluated on a concrete table. -/
theorem c7_witness :
    "completed" ≠ "" ∧
    (getTasks [rowA, rowB] (some "completed")).Perm
      ([rowA, rowB].filter (fun t => t.status == "completed")) ∧
    (GET [rowA, rowB] (some "completed")).count =
      (GET [rowA, rowB] (some "completed")).tasks.length := by
  have h := c7_getTasks_filter_sorted [rowA, rowB] "completed" (by decide)
  exact ⟨by decide, h.1, h.2.2.2.2.2.2.1⟩

/-- C10: `getTaskStats` swallows any storage failure and returns the
all-zero statistics, indistinguishable from the empty collection. -/
theorem c10_getTaskStats_swallows_errors (e : String) (now : Nat) :
    getTaskStats (.error e) now = zeroStats ∧
    getTaskStats (.error e) now = getTaskStats (.ok []) now :=
  ⟨rfl, rfl⟩

/-- C1 counterexample: a create with `priority` outside the enumeration is
not rejected with a 400 ValidationError before store access — the request
reaches the INSERT, the database check constraint rejects it, and the
handler answers with the generic 500. No row is written. -/
theorem c1_counterexample :
    (POST (some "mgr") none (some "mgr") postBodyBadPriority [] 7).1 =
      .serverError ∧
    postStatusCode
      (POST (some "mgr") none (some "mgr") postBodyBadPriority [] 7).1 ≠ 400 ∧
    insertRow [] (addTaskValues (postTaskInput postBodyBadPriority "Inventory" 7)) 7 =
      .error .checkViolation ∧
    (POST (some "mgr") none (some "mgr") postBodyBadPriority [] 7).2 = [] :=
  ⟨rfl, by decide, rfl, rfl⟩

/-- C1 (amended): for every authorized create whose effective priority or
status is outside the enumerated set, no row is written, but the rejection
comes from the database check constraint after the store is reached, and
the endpoint fails with the generic 500, not a 400 ValidationError. -/
theorem c1_invalid_enum_reaches_store
    (managerKey teamKeyEnv apiKey : Option String) (body : PostBody)
    (state : List Task) (now : Nat) (ttl : String)
    (hauth : verifyApiKey apiKey managerKey teamKeyEnv = true)
    (httl : body.title = some ttl) (hne : ttl ≠ "")
    (hbad : allowedPriorities.contains (postTaskInput body ttl now).priority = false ∨
      allowedStatuses.contains (postTaskInput body ttl now).status = false) :
    insertRow state (addTaskValues (postTaskInput body ttl now)) now =
      .error .checkViolation ∧
    addTask state (postTaskInput body ttl now) now =
      .error "Failed to add task to database" ∧
    POST managerKey teamKeyEnv apiKey body state now = (.serverError, state) ∧
    postStatusCode (POST managerKey teamKeyEnv apiKey body state now).1 = 500 := by
  have hins : insertRow state (addTaskValues (postTaskInput body ttl now)) now =
      .error .checkViolation := by
    rcases hbad with hb | hb
    · have hb' : (postTaskInput body ttl now).priority ∉ allowedPriorities := by
        simpa using hb
      simp [insertRow, addTaskValues, hb']
    · have hb' : (postTaskInput body ttl now).status ∉ allowedStatuses := by
        simpa using hb
      by_cases hpm : (postTaskInput body ttl now).priority ∈ allowedPriorities
      · simp [insertRow, addTaskValues, hpm, hb']
      · simp [insertRow, addTaskValues, hpm]
  have hadd : addTask state (postTaskInput body ttl now) now =
      .error "Failed to add task to database" := by
    simp [addTask, hins]
  have hpost : POST managerKey teamKeyEnv apiKey body state now =
      (.serverError, state) := by
    simp [POST, hauth, httl, hne, hadd]
  exact ⟨hins, hadd, hpost, by rw [hpost]; rfl⟩

/-- C1 witness: the amended behaviour evaluated on a concrete request. -/
theorem c1_witness :
    verifyApiKey (some "mgr") (some "mgr") none = true ∧
    allowedPriorities.contains
      (postTaskInput postBodyBadPriority "Inventory" 7).priority = false ∧
    POST (some "mgr") none (some "mgr") postBodyBadPriority [] 7 =
      (.serverError, []) := by
  have h := c1_invalid_enum_reaches_store (some "mgr") none (some "mgr")
    postBodyBadPriority [] 7 "Inventory" (by decide) rfl (by decide)
    (Or.inl (by decide))
  exact ⟨by decide, by decide, h.2.2.1⟩

/-- C2 counterexample: the second create with a duplicate id does fail and
does not overwrite, but its error is the very same generic message an
unrelated insert failure produces — there is no distinguishable Conflict —
and the endpoint answers 500. -/
theorem c2_counterexample :
    insertRow [rowA] (addTaskValues inputDupe) 4 = .error .uniqueViolation ∧
    addTask [rowA] inputDupe 4 = .error "Failed to add task to database" ∧
    addTask [] inputBadPriority 4 = .error "Failed to add task to database" ∧
    POST (some "mgr") none (some "mgr") postBodyDupe [rowA] 4 =
      (.serverError, [rowA]) ∧
    postStatusCode
      (POST (some "mgr") none (some "mgr") postBodyDupe [rowA] 4).1 = 500 :=
  ⟨rfl, rfl, rfl, rfl, rfl⟩

/-- C2 (amended): a create whose id already exists is rejected by the
primary-key unique constraint — nothing is overwritten and the existing
row is untouched — but the failure is rethrown as the generic
`Failed to add task to database` / HTTP 500, not a distinguishable
Conflict. -/
theorem c2_duplicate_id_generic_failure
    (managerKey teamKeyEnv apiKey : Option String) (body : PostBody)
    (state : List Task) (now : Nat) (ttl : String)
    (hauth : verifyApiKey apiKey managerKey teamKeyEnv = true)
    (httl : body.title = some ttl) (hne : ttl ≠ "")
    (hp : allowedPriorities.contains (postTaskInput body ttl now).priority = true)
    (hs : allowedStatuses.contains (postTaskInput body ttl now).status = true)
    (hdup : state.any (fun t => t.id == (postTaskInput body ttl now).id) = true) :
    insertRow state (addTaskValues (postTaskInput body ttl now)) now =
      .error .uniqueViolation ∧
    addTask state (postTaskInput body ttl now) now =
      .error "Failed to add task to database" ∧
    POST managerKey teamKeyEnv apiKey body state now = (.serverError, state) := by
  have hp' : (postTaskInput body ttl now).priority ∈ allowedPriorities := by
    simpa using hp
  have hs' : (postTaskInput body ttl now).status ∈ allowedStatuses := by
    simpa using hs
  have hins : insertRow state (addTaskValues (postTaskInput body ttl now)) now =
      .error .uniqueViolation := by
    simp [insertRow, addTaskValues, hp', hs', hdup]
  have hadd : addTask state (postTaskInput body ttl now) now =
      .error "Failed to add task to database" := by
    simp [addTask, hins]
  have hpost : POST managerKey teamKeyEnv apiKey body state now =
      (.serverError, state) := by
    simp [POST, hauth, httl, hne, hadd]
  exact ⟨hins, hadd, hpost⟩

/-- C2 witness: the amended duplicate-create behaviour on a concrete
table. -/
theorem c2_witness :
    ([rowA].any (fun t => t.id == (postTaskInput postBodyDupe "Second" 4).id)) = true ∧
    POST (some "mgr") none (some "mgr") postBodyDupe [rowA] 4 =
      (.serverError, [rowA]) := by
  have h := c2_duplicate_id_generic_failure (some "mgr") none (some "mgr")
    postBodyDupe [rowA] 4 "Second" (by decide) rfl (by decide) (by decide)
    (by decide) (by decide)
  exact ⟨by decide, h.2.2⟩

/-- C3: with the manager secret configured, a create or delete request is
accepted exactly when the presented secret equals the manager secret or
the team secret (which defaults to `team-member-access` when unconfigured):
any other request — a missing header included — gets 401 with the table
untouched, and a create with the manager secret and a valid fresh body
succeeds and appends the stored row. -/
theorem c3_api_key_gate (mk : String) (teamKeyEnv apiKey : Option String)
    (body : PostBody) (idParam : Option String) (state : List Task)
    (now : Nat) (ttl : String)
    (hmk : mk ≠ "")
    (httl : body.title = some ttl) (hne : ttl ≠ "")
    (hp : allowedPriorities.contains (postTaskInput body ttl now).priority = true)
    (hs : allowedStatuses.contains (postTaskInput body ttl now).status = true)
    (hfresh : state.any (fun t => t.id == (postTaskInput body ttl now).id) = false) :
    (verifyApiKey apiKey (some mk) teamKeyEnv = true ↔
      (apiKey = some mk ∨ apiKey = some (teamKeyOf teamKeyEnv))) ∧
    ((POST (some mk) teamKeyEnv apiKey body state now).1 = .unauthorized ↔
      ¬(apiKey = some mk ∨ apiKey = some (teamKeyOf teamKeyEnv))) ∧
    (postStatusCode (POST (some mk) teamKeyEnv apiKey body state now).1 = 401 ↔
      ¬(apiKey = some mk ∨ apiKey = some (teamKeyOf teamKeyEnv))) ∧
    ((DELETE (some mk) teamKeyEnv apiKey idParam state).1 = .unauthorized ↔
      ¬(apiKey = some mk ∨ apiKey = some (teamKeyOf teamKeyEnv))) ∧
    ((POST (some mk) teamKeyEnv apiKey body state now).1 = .unauthorized →
      (POST (some mk) teamKeyEnv apiKey body state now).2 = state) ∧
    ((DELETE (some mk) teamKeyEnv apiKey idParam state).1 = .unauthorized →
      (DELETE (some mk) teamKeyEnv apiKey idParam state).2 = state) ∧
    (apiKey = some mk →
      POST (some mk) teamKeyEnv apiKey body state now =
        (.created (storedTask (postTaskInput body ttl now) now),
          state ++ [storedTask (postTaskInput body ttl now) now])) := by
  have hv : verifyApiKey apiKey (some mk) teamKeyEnv = true ↔
      (apiKey = some mk ∨ apiKey = some (teamKeyOf teamKeyEnv)) := by
    simp [verifyApiKey, hmk]
  by_cases hkey : verifyApiKey apiKey (some mk) teamKeyEnv = true
  · have hyes := hv.mp hkey
    have hadd := addTask_ok state (postTaskInput body ttl now) now hp hs hfresh
    have hcreated : POST (some mk) teamKeyEnv apiKey body state now =
        (.created (storedTask (postTaskInput body ttl now) now),
          state ++ [storedTask (postTaskInput body ttl now) now]) := by
      simp [POST, hkey, httl, hne, hadd]
    have hdel : (DELETE (some mk) teamKeyEnv apiKey idParam state).1 ≠
        .unauthorized := by
      simp only [DELETE, hkey, if_true]
      cases idParam with
      | none => simp
      | some tid =>
        by_cases ht : tid = ""
        · simp [ht]
        · by_cases hr : (deleteTask state tid).1 <;> simp [ht, hr]
    refine ⟨hv, ?_, ?_, ?_, ?_, fun h => absurd h hdel, fun _ => hcreated⟩
    · rw [hcreated]; simp [hyes]
    · rw [hcreated]; simp [hyes, postStatusCode]
    · simp [hdel, hyes]
    · rw [hcreated]; simp
  · have hno : verifyApiKey apiKey (some mk) teamKeyEnv = false := by
      revert hkey; cases verifyApiKey apiKey (some mk) teamKeyEnv <;> simp
    have hnot : ¬(apiKey = some mk ∨ apiKey = some (teamKeyOf teamKeyEnv)) :=
      fun hcon => hkey (hv.mpr hcon)
    have hP : POST (some mk) teamKeyEnv apiKey body state now =
        (.unauthorized, state) := by
      simp [POST, hno]
    have hD : DELETE (some mk) teamKeyEnv apiKey idParam state =
        (.unauthorized, state) := by
      simp [DELETE, hno]
    refine ⟨hv, ?_, ?_, ?_, ?_, ?_, ?_⟩
    · rw [hP]; simp [hnot]
    · rw [hP]; simp [hnot, postStatusCode]
    · rw [hD]; simp [hnot]
    · rw [hP]; intro _; rfl
    · rw [hD]; intro _; rfl
    · intro hk; exact absurd (hv.mpr (Or.inl hk)) hkey

/-- C3 witness: the gate evaluated with a concrete configured manager
secret and a concrete valid create. -/
theorem c3_witness :
    ("mgr" : String) ≠ "" ∧
    (verifyApiKey (some "mgr") (some "mgr") none = true ↔
      ((some "mgr" : Option String) = some "mgr" ∨
        (some "mgr" : Option String) = some (teamKeyOf none))) ∧
    ((some "mgr" : Option String) = some "mgr" →
      POST (some "mgr") none (some "mgr") postBodyOk [] 11 =
        (.created (storedTask (postTaskInput postBodyOk "Prep line" 11) 11),
          [] ++ [storedTask (postTaskInput postBodyOk "Prep line" 11) 11])) := by
  have h := c3_api_key_gate "mgr" none (some "mgr") postBodyOk none [] 11
    "Prep line" (by decide) rfl (by decide) (by decide) (by decide) (by decide)
  exact ⟨by decide, h.1, h.2.2.2.2.2.2⟩

end ChiliBoard
